import Mathlib

/-!
Shallow embedding of `smtpd.go` (package main, barinek/go-smtpd): a minimal
SMTP server.  Strings are modelled as `List Char` (Go strings are byte
sequences; every string handled by the claims is Latin-1/ASCII, where byte
positions and character positions coincide — in particular `' '`, `'\r'`,
`'\n'`, `'@'`, `'<'`, `'>'` are single-byte and never occur inside a
multi-byte encoding).  Case folding uses `Char.toUpper`/`Char.toLower`,
which agree with Go's `strings.ToUpper`/`ToLower` on ASCII.

I/O is modelled by returning the exact bytes each handler writes to the
buffered writer; the session loop body (`session.serve`, lines 177-216)
becomes a step function from a session state and one input line to the
written bytes plus either the next state, session termination (QUIT), or a
Go runtime panic.
-/

/-- Strings of the Go program, as lists of characters. -/
abbrev Str := List Char

/-- Embed a Lean string literal as a `Str`. -/
def str (s : String) : Str := s.data

/-- The CRLF line terminator. -/
def crlf : Str := ['\r', '\n']

/-- Go `unicode.IsSpace` restricted to Latin-1 (the only inputs the claims
use); covers `'\t'`, `'\n'`, `'\v'`, `'\f'`, `'\r'`, `' '`, U+0085, U+00A0. -/
def goIsSpace (c : Char) : Bool :=
  c = ' ' || c = '\t' || c = '\n' || c = '\x0b' || c = '\x0c' || c = '\r' ||
  c = '\x85' || c = '\xA0'

/-- Character class `\s` of Go `regexp`: `[\t\n\f\r ]`. -/
def reIsSpace (c : Char) : Bool :=
  c = '\t' || c = '\n' || c = '\x0c' || c = '\r' || c = ' '

/-- Go `strings.TrimRightFunc s unicode.IsSpace`: drop trailing whitespace. -/
def trimRightSpace (l : Str) : Str :=
  (l.reverse.dropWhile goIsSpace).reverse

/-- Go `strings.Index s c` for a single-character needle: index of the first
occurrence, `none` when Go returns `-1`. -/
def strIndex (l : Str) (c : Char) : Option Nat :=
  match l with
  | [] => none
  | d :: rest => if d = c then some 0 else (strIndex rest c).map (· + 1)

/-- Go type `cmdLine string` (line 291): one raw input line, CRLF included. -/
abbrev cmdLine := Str

/-- `cmdLine.Verb` (lines 308-314): token up to the first space, uppercased;
with no space, the whole line minus its last two bytes, uppercased. -/
def cmdLine.Verb (cl : cmdLine) : Str :=
  match strIndex cl ' ' with
  | some idx => (cl.take idx).map Char.toUpper
  | none => (cl.take (cl.length - 2)).map Char.toUpper

/-- `cmdLine.Arg` (lines 316-322): Go slice `s[idx+1 : len(s)-2]` right-trimmed
of whitespace after the first space, else `""`.  (For a line ending in CRLF a
space, when present, sits strictly before the CRLF, so the slice is in
bounds; only such lines reach `Arg` in `serve`.) -/
def cmdLine.Arg (cl : cmdLine) : Str :=
  match strIndex cl ' ' with
  | some idx => trimRightSpace ((cl.take (cl.length - 2)).drop (idx + 1))
  | none => []

/-- `cmdLine.checkValid` (lines 293-306): `some errorMessage` models a non-nil
`os.Error`, `none` models nil. -/
def cmdLine.checkValid (cl : cmdLine) : Option Str :=
  if ¬ (crlf.isSuffixOf cl) then some (str "line doesn\x27t end in \\r\\n")
  else if (cl.Verb = str "RSET" ∨ cl.Verb = str "DATA" ∨ cl.Verb = str "QUIT")
      ∧ cl.Arg ≠ [] then some (str "unexpected argument")
  else none

/-- Go type `addrString string` (line 277). -/
abbrev addrString := Str

/-- `addrString.Email` (lines 279-281): the raw address, verbatim. -/
def addrString.Email (a : addrString) : Str := a

/-- `addrString.Hostname` (lines 283-289): `strings.Index(e, "@")`, then
`strings.ToLower(e[idx+1:])`, else `""`. -/
def addrString.Hostname (a : addrString) : Str :=
  match strIndex a '@' with
  | some idx => (a.drop (idx + 1)).map Char.toLower
  | none => []

example : cmdLine.Verb (str "mail FROM:<a@b.com>\r\n") = str "MAIL" := by decide
example : cmdLine.Arg (str "mail FROM:<a@b.com>\r\n") = str "FROM:<a@b.com>" := by decide
example : cmdLine.Verb (str "NOOP\r\n") = str "NOOP" := by decide
example : cmdLine.Arg (str "NOOP\r\n") = str "" := by decide
example : cmdLine.checkValid (str "RSET x\r\n") = some (str "unexpected argument") := by decide
example : cmdLine.checkValid (str "RSET") = some (str "line doesn\x27t end in \\r\\n") := by decide
example : cmdLine.checkValid (str "RSET\r\n") = none := by decide
example : addrString.Hostname (str "user@EXAMPLE.com") = str "example.com" := by decide
example : addrString.Hostname (str "no-at-sign") = str "" := by decide

/-!
Models of the two compiled regular expressions (lines 19-22):
  `rcptToRE   = (?i)^to:\s*<(.+?)>`
  `mailFromRE = (?i)^from:\s*<(.*?)>`
`FindStringSubmatch` is anchored at the start; `(?i)` case-folds the
literal letters; `\s*` greedily eats the `reIsSpace` class (backtracking is
moot since `<` is not in the class); the lazy group captures the shortest
run of `.`-matchable characters (anything but `'\n'`) before a closing
`'>'`.  We model only the first capture group: `none` corresponds to a nil
match, `some g` to `m[1] = g`.
-/

/-- Lazy `(.*?)>`: capture the (possibly empty) run up to the first `'>'`,
failing on `'\n'` or end of input. -/
def scanCapture : Str → Option Str
  | [] => none
  | c :: rest =>
    if c = '>' then some []
    else if c = '\n' then none
    else (scanCapture rest).map (c :: ·)

/-- Lazy `(.+?)>`: like `scanCapture` but the group must be nonempty, so the
first character is consumed by `.` even when it is `'>'`. -/
def plusCapture : Str → Option Str
  | [] => none
  | c :: rest =>
    if c = '\n' then none
    else (scanCapture rest).map (c :: ·)

/-- First capture group of `mailFromRE.FindStringSubmatch arg` (line 21). -/
def mailFromREMatch (arg : Str) : Option Str :=
  match arg with
  | c0 :: c1 :: c2 :: c3 :: c4 :: rest =>
    if c0.toLower = 'f' ∧ c1.toLower = 'r' ∧ c2.toLower = 'o' ∧
        c3.toLower = 'm' ∧ c4 = ':' then
      match rest.dropWhile reIsSpace with
      | '<' :: tail => scanCapture tail
      | _ => none
    else none
  | _ => none

/-- First capture group of `rcptToRE.FindStringSubmatch arg` (line 20). -/
def rcptToREMatch (arg : Str) : Option Str :=
  match arg with
  | c0 :: c1 :: c2 :: rest =>
    if c0.toLower = 't' ∧ c1.toLower = 'o' ∧ c2 = ':' then
      match rest.dropWhile reIsSpace with
      | '<' :: tail => plusCapture tail
      | _ => none
    else none
  | _ => none

example : mailFromREMatch (str "From:<foo@bar.com>") = some (str "foo@bar.com") := by decide
example : mailFromREMatch (str "FROM: <>") = some (str "") := by decide
example : mailFromREMatch (str "To:<foo@bar.com>") = none := by decide
example : rcptToREMatch (str "to: <x@y.com>") = some (str "x@y.com") := by decide
example : rcptToREMatch (str "To:<>") = none := by decide
example : rcptToREMatch (str "foo") = none := by decide

/-!
The session model.  Go's `Envelope` is an interface; the embedding is
parametric in the envelope type `E` together with its `AddRecipient`
method (`E → Str → Except Str E`; mutation becomes returning the new
envelope, a non-nil `os.Error` becomes `.error` carrying the message text).
`BasicEnvelope` (lines 56-63) is the concrete instance shipped with the
code.  `Server.OnNewMail` (line 37) keeps only the data the handlers
consult: the callback takes the sender address (the `Connection` argument
carries no data the session logic reads) and returns an envelope or an
error.  `Server.hostname` (lines 72-81) falls back to the trimmed output of
the external `hostname` command, modelled as the field `sysHostname`.
-/

/-- Method suite of a Go `Envelope` implementation (interface, lines 52-54). -/
structure EnvOps (E : Type) where
  AddRecipient : E → addrString → Except Str E

/-- `BasicEnvelope` (lines 56-58): just its `rcpts` slice. -/
abbrev BasicEnvelope := List addrString

/-- `BasicEnvelope.AddRecipient` (lines 60-63): append, never an error. -/
def BasicEnvelope.AddRecipient (e : BasicEnvelope) (rcpt : addrString) :
    Except Str BasicEnvelope :=
  .ok (e ++ [rcpt])

/-- The `EnvOps` of `BasicEnvelope`. -/
def basicEnvOps : EnvOps BasicEnvelope := ⟨BasicEnvelope.AddRecipient⟩

/-- `Server` (lines 25-38), restricted to the fields the session logic
reads.  `sysHostname` stands for the system hostname the excluded exec
plumbing would return. -/
structure Server (E : Type) where
  Hostname : Str
  sysHostname : Str
  OnNewMail : Option (addrString → Except Str E)

/-- `Server.hostname` (lines 72-81). -/
def Server.hostname {E : Type} (srv : Server E) : Str :=
  if srv.Hostname ≠ [] then srv.Hostname else srv.sysHostname

/-- Mutable state of a `session` (lines 124-134): the current envelope (or
nil) and the hello metadata.  The connection and buffers are modelled by the
step function's output bytes. -/
structure SessionState (E : Type) where
  env : Option E
  helloType : Str
  helloHost : Str
deriving DecidableEq

/-- State of a freshly constructed session (`newSession`, lines 136-144):
Go zero values. -/
def initialState (E : Type) : SessionState E :=
  { env := none, helloType := [], helloHost := [] }

/-- Bytes written plus resulting state, for handlers that always return to
the loop. -/
structure HandlerOut (E : Type) where
  out : Str
  st : SessionState E
deriving DecidableEq

/-- The five extension lines of `handleHello`'s loop (lines 223-229). -/
def smtpExtensions : List Str :=
  [str "250-PIPELINING", str "250-SIZE 10240000", str "250-ENHANCEDSTATUSCODES",
   str "250-8BITMIME", str "250 DSN"]

/-- `session.handleHello` (lines 219-233): record hello type and host, write
`250-<hostname>` then each extension line. -/
def session.handleHello {E : Type} (srv : Server E) (st : SessionState E)
    (greeting host : Str) : HandlerOut E :=
  { out := (str "250-" ++ srv.hostname ++ crlf) ++
      (smtpExtensions.map (· ++ crlf)).flatten,
    st := { st with helloType := greeting, helloHost := host } }

/-- `session.handleMailFrom` (lines 235-256).  Order of the source: nested
MAIL check (503), nil-callback check (451), `s.env = nil`, callback, silent
return on callback error, else store envelope and send 250. -/
def session.handleMailFrom {E : Type} (srv : Server E) (st : SessionState E)
    (email : Str) : HandlerOut E :=
  if st.env.isSome then
    { out := str "503 5.5.1 Error: nested MAIL command" ++ crlf, st := st }
  else
    match srv.OnNewMail with
    | none =>
      { out := str "451 Server.OnNewMail not configured" ++ crlf, st := st }
    | some cb =>
      match cb email with
      | .error _ => { out := [], st := { st with env := none } }
      | .ok env => { out := str "250 2.1.0 Ok" ++ crlf,
                     st := { st with env := some env } }

/-- Result of `handleRcpt`: either bytes plus next state, or a Go runtime
panic (which kills the whole process) after the given bytes were written. -/
inductive RcptResult (E : Type) where
  | ok (out : Str) (st : SessionState E)
  | crash (out : Str)
deriving DecidableEq

/-- `session.handleRcpt` (lines 258-275).  On a `rcptToRE` miss the source
sends 501 but LACKS a `return`: execution falls through to
`s.env.AddRecipient(addrString(m[1]))` with `m == nil`, and indexing a nil
slice is a runtime panic — modelled as `.crash` with the 501 line already
written. -/
def session.handleRcpt {E : Type} (ops : EnvOps E) (st : SessionState E)
    (line : cmdLine) : RcptResult E :=
  match st.env with
  | none => .ok (str "503 5.5.1 Error: need MAIL command" ++ crlf) st
  | some env =>
    match rcptToREMatch line.Arg with
    | none => .crash (str "501 5.1.7 Bad sender address syntax" ++ crlf)
    | some addr =>
      match ops.AddRecipient env addr with
      | .error msg =>
        .ok (str "550 bad recipient: " ++ msg ++ crlf) st
      | .ok env' =>
        .ok (str "250 2.1.0 Ok" ++ crlf) { st with env := some env' }

/-- Outcome of one iteration of the `serve` loop (lines 177-216) on one
input line. -/
inductive StepOut (E : Type) where
  | cont (out : Str) (st : SessionState E)
  | quit (out : Str)
  | crash (out : Str)
deriving DecidableEq

/-- One iteration of the `serve` loop body (lines 183-215): validate the
line (500 and continue on error), then dispatch on the verb exactly as the
`switch` does. -/
def session.step {E : Type} (srv : Server E) (ops : EnvOps E)
    (st : SessionState E) (line : cmdLine) : StepOut E :=
  match line.checkValid with
  | some msg => .cont (str "500 " ++ msg ++ crlf) st
  | none =>
    if line.Verb = str "HELO" ∨ line.Verb = str "EHLO" then
      let r := session.handleHello srv st line.Verb line.Arg
      .cont r.out r.st
    else if line.Verb = str "QUIT" then
      .quit (str "221 2.0.0 Bye" ++ crlf)
    else if line.Verb = str "RSET" then
      .cont (str "250 2.0.0 OK" ++ crlf) { st with env := none }
    else if line.Verb = str "NOOP" then
      .cont (str "250 2.0.0 OK" ++ crlf) st
    else if line.Verb = str "MAIL" then
      match mailFromREMatch line.Arg with
      | none => .cont (str "501 5.1.7 Bad sender address syntax" ++ crlf) st
      | some email =>
        let r := session.handleMailFrom srv st email
        .cont r.out r.st
    else if line.Verb = str "RCPT" then
      match session.handleRcpt ops st line with
      | .ok out st' => .cont out st'
      | .crash out => .crash out
    else if line.Verb = str "DATA" then
      .cont (str "354 Go ahead" ++ crlf) st
    else
      .cont (str "502 5.5.2 Error: command not recognized" ++ crlf) st

example :
    session.step (E := BasicEnvelope)
      ⟨str "mx.test", [], some (fun _ => .ok [])⟩ basicEnvOps
      (initialState _) (str "MAIL FROM:<a@b.com>\r\n") =
    .cont (str "250 2.1.0 Ok" ++ crlf) ⟨some [], [], []⟩ := by decide

example :
    session.step (E := BasicEnvelope)
      ⟨str "mx.test", [], some (fun _ => .ok [])⟩ basicEnvOps
      ⟨some [], [], []⟩ (str "RCPT TO:<c@d.com>\r\n") =
    .cont (str "250 2.1.0 Ok" ++ crlf) ⟨some [str "c@d.com"], [], []⟩ := by
  decide

example :
    session.step (E := BasicEnvelope)
      ⟨str "mx.test", [], some (fun _ => .ok [])⟩ basicEnvOps
      ⟨some [], [], []⟩ (str "QUIT\r\n") =
    .quit (str "221 2.0.0 Bye" ++ crlf) := by decide

/-- Sessions reachable by the `serve` loop: the freshly constructed state,
closed under loop iterations that continue. -/
inductive Reachable {E : Type} (srv : Server E) (ops : EnvOps E) :
    SessionState E → Prop
  | init : Reachable srv ops (initialState E)
  | next {st st' : SessionState E} {line out : Str} :
      Reachable srv ops st →
      session.step srv ops st line = .cont out st' →
      Reachable srv ops st'

/-!
Byte-stream views and spec-side restatements.  `splitCRLF` cuts a byte
stream at each CRLF; `respLines` is the list of CRLF-terminated lines of a
response that ends in CRLF.  The `...Spec` definitions transcribe the
spec's own wording (token up to the first space; substring after the first
space; substring after the last `@`) to be compared with the definitions
transcribed from the source.
-/

/-- Split a byte stream at every CRLF occurrence; the final element is the
residue after the last CRLF (empty when the stream ends in CRLF). -/
def splitCRLF : Str → List Str
  | [] => [[]]
  | '\r' :: '\n' :: rest => [] :: splitCRLF rest
  | c :: rest =>
    match splitCRLF rest with
    | [] => [[c]]
    | l :: ls => (c :: l) :: ls

/-- The CRLF-terminated lines of a response (drops the residue after the
last CRLF). -/
def respLines (out : Str) : List Str :=
  (splitCRLF out).dropLast

example : splitCRLF (str "a\r\nbc\r\n") = [str "a", str "bc", []] := by decide
example : respLines (str "a\r\nbc\r\n") = [str "a", str "bc"] := by decide

/-- The spec's wording for `verb()`: "token up to the first space,
uppercased; if no space exists, the whole line minus the trailing CRLF,
uppercased." -/
def verbSpec (cl : Str) : Str :=
  if ' ' ∈ cl then (cl.takeWhile (· ≠ ' ')).map Char.toUpper
  else (cl.take (cl.length - 2)).map Char.toUpper

/-- The spec's wording for `argument()`: "substring after the first space,
with trailing whitespace and the CRLF stripped; empty string if no space
was found." -/
def argSpec (cl : Str) : Str :=
  if ' ' ∈ cl then
    trimRightSpace
      (((cl.dropWhile (· ≠ ' ')).drop 1).take
        (((cl.dropWhile (· ≠ ' ')).drop 1).length - 2))
  else []

/-- The spec's wording for `domain()`: "the substring after the last `@`
(case-folded to lowercase), or empty if no `@` present." -/
def domainSpecLast (a : Str) : Str :=
  if '@' ∈ a then
    ((a.reverse.takeWhile (· ≠ '@')).reverse).map Char.toLower
  else []

/-- The same wording amended to the first `@`: "the substring after the
first `@` (case-folded to lowercase), or empty if no `@` present." -/
def domainSpecFirst (a : Str) : Str :=
  if '@' ∈ a then
    ((a.dropWhile (· ≠ '@')).drop 1).map Char.toLower
  else []

example : domainSpecLast (str "a@b@C") = str "c" := by decide
example : domainSpecFirst (str "a@b@C") = str "b@c" := by decide
example : addrString.Hostname (str "a@b@C") = str "b@c" := by decide

/-! Helper lemmas relating `strIndex` (Go `strings.Index`) to the
`takeWhile`/`dropWhile` phrasing the spec uses. -/

lemma strIndex_eq_none_iff {l : Str} {c : Char} :
    strIndex l c = none ↔ c ∉ l := by
  induction l with
  | nil => simp [strIndex]
  | cons d rest ih =>
    simp only [strIndex, List.mem_cons]
    by_cases hd : d = c
    · simp [hd]
    · have hd' : ¬ (c = d) := fun h => hd h.symm
      simp [hd, hd', Option.map_eq_none', ih]

lemma strIndex_mem_of_some {l : Str} {c : Char} {i : Nat}
    (h : strIndex l c = some i) : c ∈ l := by
  by_contra hc
  rw [← strIndex_eq_none_iff] at hc
  rw [hc] at h
  exact Option.noConfusion h

lemma take_strIndex {l : Str} {c : Char} {i : Nat}
    (h : strIndex l c = some i) :
    l.take i = l.takeWhile (fun d => d ≠ c) := by
  induction l generalizing i with
  | nil => simp [strIndex] at h
  | cons d rest ih =>
    simp only [strIndex] at h
    by_cases hd : d = c
    · rw [if_pos hd] at h
      injection h with h0
      subst h0
      subst hd
      simp [List.takeWhile_cons]
    · rw [if_neg hd] at h
      obtain ⟨j, hj, rfl⟩ := Option.map_eq_some'.mp h
      simp [List.take_succ_cons, List.takeWhile_cons, hd, ih hj]

lemma drop_strIndex {l : Str} {c : Char} {i : Nat}
    (h : strIndex l c = some i) :
    l.drop (i + 1) = (l.dropWhile (fun d => d ≠ c)).drop 1 := by
  induction l generalizing i with
  | nil => simp [strIndex] at h
  | cons d rest ih =>
    simp only [strIndex] at h
    by_cases hd : d = c
    · rw [if_pos hd] at h
      injection h with h0
      subst h0
      simp [List.dropWhile_cons, hd]
    · rw [if_neg hd] at h
      obtain ⟨j, hj, rfl⟩ := Option.map_eq_some'.mp h
      simp [List.drop_succ_cons, List.dropWhile_cons, hd, ih hj]

/-- C5, counterexample: the claim says `Hostname` returns the substring
after the LAST `@`, lowercased; on `"a@b@C"` the code, which slices after
the FIRST `@` (`strings.Index`, line 285), returns `"b@c"`, not `"c"`. -/
theorem C5_hostname_last_at_counterexample :
    addrString.Hostname (str "a@b@C") = str "b@c" ∧
    domainSpecLast (str "a@b@C") = str "c" ∧
    addrString.Hostname (str "a@b@C") ≠ domainSpecLast (str "a@b@C") := by
  decide

/-- C5, amended: for every raw address string, `Email` returns it verbatim
and `Hostname` returns the substring after the FIRST `@`, case-folded to
lowercase, or the empty string if the address contains no `@`. -/
theorem C5_email_hostname_amended (a : addrString) :
    a.Email = a ∧ a.Hostname = domainSpecFirst a := by
  refine ⟨rfl, ?_⟩
  unfold addrString.Hostname domainSpecFirst
  cases h : strIndex a '@' with
  | none =>
    have hnm : '@' ∉ a := strIndex_eq_none_iff.mp h
    simp [hnm]
  | some i =>
    have hmem : '@' ∈ a := strIndex_mem_of_some h
    dsimp only
    rw [if_pos hmem, drop_strIndex h]

/-- C6: `checkValid` fails exactly when the line does not end in CRLF, or
when its verb (case-insensitively — `Verb` uppercases) is one of RSET,
DATA, QUIT and the argument is non-empty; on every other line it
succeeds. -/
theorem C6_checkValid_fails_iff (cl : cmdLine) :
    cl.checkValid ≠ none ↔
      (¬ crlf.isSuffixOf cl ∨
        ((cl.Verb = str "RSET" ∨ cl.Verb = str "DATA" ∨ cl.Verb = str "QUIT") ∧
          cl.Arg ≠ [])) := by
  unfold cmdLine.checkValid
  by_cases h1 : crlf.isSuffixOf cl
  · by_cases h2 : (cl.Verb = str "RSET" ∨ cl.Verb = str "DATA" ∨
        cl.Verb = str "QUIT") ∧ cl.Arg ≠ []
    · simp [h1, h2]
    · simp [h1, h2]
  · simp [h1]

/-- C7: on every CRLF-terminated line, `Verb` and `Arg` (transcribed from
the source's index/slice arithmetic, lines 308-322) agree with the spec's
wording: the token up to the first space, uppercased (whole line minus the
CRLF when no space exists), and the substring after the first space with
the CRLF and trailing whitespace stripped (empty when no space exists). -/
theorem C7_verb_arg_match_spec (cl : cmdLine) (_h : crlf.isSuffixOf cl) :
    cl.Verb = verbSpec cl ∧ cl.Arg = argSpec cl := by
  constructor
  · unfold cmdLine.Verb verbSpec
    cases hi : strIndex cl ' ' with
    | none =>
      have hnm : ' ' ∉ cl := strIndex_eq_none_iff.mp hi
      simp [hnm]
    | some i =>
      have hmem : ' ' ∈ cl := strIndex_mem_of_some hi
      dsimp only
      rw [if_pos hmem, take_strIndex hi]
  · unfold cmdLine.Arg argSpec
    cases hi : strIndex cl ' ' with
    | none =>
      have hnm : ' ' ∉ cl := strIndex_eq_none_iff.mp hi
      simp [hnm]
    | some i =>
      have hmem : ' ' ∈ cl := strIndex_mem_of_some hi
      dsimp only
      rw [if_pos hmem, ← drop_strIndex hi,
        List.drop_take (cl.length - 2) (i + 1) cl]
      have hlen : cl.length - 2 - (i + 1) = (cl.drop (i + 1)).length - 2 := by
        rw [List.length_drop]
        omega
      rw [hlen]

/-- Witness for C7 at the concrete line `"MAIL FROM:<a@b.com> \r\n"`. -/
theorem C7_verb_arg_match_spec_witness :
    crlf.isSuffixOf (str "MAIL FROM:<a@b.com> \r\n") ∧
    (cmdLine.Verb (str "MAIL FROM:<a@b.com> \r\n") =
        verbSpec (str "MAIL FROM:<a@b.com> \r\n") ∧
      cmdLine.Arg (str "MAIL FROM:<a@b.com> \r\n") =
        argSpec (str "MAIL FROM:<a@b.com> \r\n")) :=
  ⟨by decide, C7_verb_arg_match_spec (str "MAIL FROM:<a@b.com> \r\n") (by decide)⟩

lemma splitCRLF_append {l : Str} (r : Str) (h : '\r' ∉ l) :
    splitCRLF (l ++ crlf ++ r) = l :: splitCRLF r := by
  induction l with
  | nil => simp [splitCRLF, crlf]
  | cons c l' ih =>
    have hc : c ≠ '\r' := fun hcr => h (hcr ▸ List.mem_cons_self c l')
    have ih' := ih (fun hm => h (List.mem_cons_of_mem c hm))
    rw [splitCRLF.eq_def]
    split
    · simp_all
    · rename_i heq
      rw [List.cons_append, List.cons_append] at heq
      injection heq with h1 _
      exact absurd h1 hc
    · rename_i cc rest heq
      rw [List.cons_append, List.cons_append] at heq
      injection heq with h1 h2
      subst h1
      subst h2
      rw [ih']

/-- C4, counterexample: on a concrete server, the full response
`handleHello` writes for `EHLO client.example` splits into SIX
CRLF-terminated lines, not five: the `250-<hostname>` line precedes the
five extension lines. -/
theorem C4_hello_five_lines_counterexample :
    (respLines (session.handleHello (E := BasicEnvelope)
        ⟨str "mx.example.com", [], none⟩ (initialState BasicEnvelope)
        (str "EHLO") (str "client.example")).out).length = 6 ∧
    ¬ (respLines (session.handleHello (E := BasicEnvelope)
        ⟨str "mx.example.com", [], none⟩ (initialState BasicEnvelope)
        (str "EHLO") (str "client.example")).out).length = 5 := by
  decide

/-- C4, amended: for every EHLO (or HELO) command, the response written to
the connection consists of exactly six CRLF-terminated lines: first
`250-<hostname>`, then the extensions in the fixed order PIPELINING,
SIZE 10240000, ENHANCEDSTATUSCODES, 8BITMIME, DSN — so the first five lines
are prefixed `250-` and the last `250 ` (space, not dash). -/
theorem C4_hello_response_amended {E : Type} (srv : Server E)
    (st : SessionState E) (greeting host : Str) (h : '\r' ∉ srv.hostname) :
    respLines (session.handleHello srv st greeting host).out =
      [str "250-" ++ srv.hostname, str "250-PIPELINING", str "250-SIZE 10240000",
       str "250-ENHANCEDSTATUSCODES", str "250-8BITMIME", str "250 DSN"] := by
  have h1 : '\r' ∉ str "250-" ++ srv.hostname := by
    intro hm
    rcases List.mem_append.mp hm with hm | hm
    · exact absurd hm (by decide)
    · exact h hm
  have hext : splitCRLF ((smtpExtensions.map (· ++ crlf)).flatten) =
      [str "250-PIPELINING", str "250-SIZE 10240000", str "250-ENHANCEDSTATUSCODES",
       str "250-8BITMIME", str "250 DSN", []] := by decide
  unfold respLines session.handleHello
  dsimp only
  rw [splitCRLF_append _ h1, hext]
  rfl

/-- Witness for C4's amended theorem at a concrete server and command. -/
theorem C4_hello_response_amended_witness :
    '\r' ∉ Server.hostname (E := BasicEnvelope) ⟨str "mx.example.com", [], none⟩ ∧
    respLines (session.handleHello (E := BasicEnvelope)
        ⟨str "mx.example.com", [], none⟩ (initialState BasicEnvelope)
        (str "EHLO") (str "client.example")).out =
      [str "250-" ++ Server.hostname (E := BasicEnvelope) ⟨str "mx.example.com", [], none⟩,
       str "250-PIPELINING", str "250-SIZE 10240000",
       str "250-ENHANCEDSTATUSCODES", str "250-8BITMIME", str "250 DSN"] :=
  ⟨by decide, C4_hello_response_amended ⟨str "mx.example.com", [], none⟩
    (initialState BasicEnvelope) (str "EHLO") (str "client.example") (by decide)⟩

/-- C1: a syntactically valid MAIL FROM processed while an envelope is
active answers `503 5.5.1 Error: nested MAIL command` and returns the
session state untouched — the envelope reference is not replaced, so its
recipient list is exactly whatever the RCPTs accepted since the first
MAIL FROM built up. -/
theorem C1_nested_mail_rejected {E : Type} (srv : Server E) (ops : EnvOps E)
    (st : SessionState E) (line : cmdLine) (e : E) (email : Str)
    (henv : st.env = some e)
    (hvalid : line.checkValid = none)
    (hverb : line.Verb = str "MAIL")
    (hm : mailFromREMatch line.Arg = some email) :
    session.step srv ops st line =
      .cont (str "503 5.5.1 Error: nested MAIL command" ++ crlf) st := by
  unfold session.step session.handleMailFrom
  rw [hvalid, hverb, hm, henv]
  rfl

/-- Witness for C1: a session holding one accepted recipient rejects a
second `MAIL FROM:<a@b.com>` with 503 and keeps its state. -/
theorem C1_nested_mail_rejected_witness :
    (⟨some [str "c@d.com"], str "EHLO", str "h"⟩ : SessionState BasicEnvelope).env
        = some [str "c@d.com"] ∧
    cmdLine.checkValid (str "MAIL FROM:<a@b.com>\r\n") = none ∧
    cmdLine.Verb (str "MAIL FROM:<a@b.com>\r\n") = str "MAIL" ∧
    mailFromREMatch (cmdLine.Arg (str "MAIL FROM:<a@b.com>\r\n")) = some (str "a@b.com") ∧
    session.step (E := BasicEnvelope) ⟨str "mx.test", [], none⟩ basicEnvOps
        ⟨some [str "c@d.com"], str "EHLO", str "h"⟩ (str "MAIL FROM:<a@b.com>\r\n") =
      .cont (str "503 5.5.1 Error: nested MAIL command" ++ crlf)
        ⟨some [str "c@d.com"], str "EHLO", str "h"⟩ :=
  ⟨by decide, by decide, by decide, by decide,
    C1_nested_mail_rejected ⟨str "mx.test", [], none⟩ basicEnvOps
      ⟨some [str "c@d.com"], str "EHLO", str "h"⟩ (str "MAIL FROM:<a@b.com>\r\n")
      [str "c@d.com"] (str "a@b.com") (by decide) (by decide) (by decide) (by decide)⟩

/-- C2: a RCPT command processed while no envelope is active answers
`503 5.5.1 Error: need MAIL command` and returns the session state
untouched: no envelope is created. -/
theorem C2_rcpt_without_mail_rejected {E : Type} (srv : Server E)
    (ops : EnvOps E) (st : SessionState E) (line : cmdLine)
    (henv : st.env = none)
    (hvalid : line.checkValid = none)
    (hverb : line.Verb = str "RCPT") :
    session.step srv ops st line =
      .cont (str "503 5.5.1 Error: need MAIL command" ++ crlf) st := by
  unfold session.step session.handleRcpt
  rw [hvalid, hverb, henv]
  rfl

/-- Witness for C2: `RCPT TO:<x@y.com>` in the initial state answers 503
and leaves the state untouched. -/
theorem C2_rcpt_without_mail_rejected_witness :
    (initialState BasicEnvelope).env = none ∧
    cmdLine.checkValid (str "RCPT TO:<x@y.com>\r\n") = none ∧
    cmdLine.Verb (str "RCPT TO:<x@y.com>\r\n") = str "RCPT" ∧
    session.step (E := BasicEnvelope) ⟨str "mx.test", [], none⟩ basicEnvOps
        (initialState BasicEnvelope) (str "RCPT TO:<x@y.com>\r\n") =
      .cont (str "503 5.5.1 Error: need MAIL command" ++ crlf)
        (initialState BasicEnvelope) :=
  ⟨by decide, by decide, by decide,
    C2_rcpt_without_mail_rejected ⟨str "mx.test", [], none⟩ basicEnvOps
      (initialState BasicEnvelope) (str "RCPT TO:<x@y.com>\r\n")
      (by decide) (by decide) (by decide)⟩

/-- C3, the code evaluated at the failing input: with an active envelope, a
RCPT line whose argument misses the `To:<...>` pattern makes the session
write the 501 line and then CRASH: the source lacks a `return` after the
501 (line 266), so it falls through to `s.env.AddRecipient(addrString(m[1]))`
and indexes a nil regex match — a runtime panic that kills the process
instead of continuing the session as the spec requires. -/
theorem C3_rcpt_syntax_error_crashes :
    session.step (E := BasicEnvelope) ⟨str "mx.test", [], none⟩ basicEnvOps
      ⟨some [str "c@d.com"], str "EHLO", str "client.example"⟩
      (str "RCPT foo\r\n") =
      .crash (str "501 5.1.7 Bad sender address syntax" ++ crlf) := by
  decide

/-- With no new-mail callback configured, one loop iteration never creates
an envelope: `s.env` is only ever assigned from the callback's return
(line 254). -/
lemma step_env_none {E : Type} {srv : Server E} {ops : EnvOps E}
    {st st' : SessionState E} {line out : Str}
    (hcb : srv.OnNewMail = none) (henv : st.env = none)
    (hstep : session.step srv ops st line = .cont out st') :
    st'.env = none := by
  unfold session.step at hstep
  split at hstep
  · cases hstep
    exact henv
  · split at hstep
    · cases hstep
      exact henv
    · split at hstep
      · exact StepOut.noConfusion hstep
      · split at hstep
        · cases hstep
          rfl
        · split at hstep
          · cases hstep
            exact henv
          · split at hstep
            · split at hstep
              · cases hstep
                exact henv
              · cases hstep
                unfold session.handleMailFrom
                rw [henv, hcb]
                exact henv
            · split at hstep
              · split at hstep
                · rename_i heq
                  cases hstep
                  rw [session.handleRcpt.eq_def, henv] at heq
                  dsimp only at heq
                  cases heq
                  exact henv
                · exact StepOut.noConfusion hstep
              · split at hstep
                · cases hstep
                  exact henv
                · cases hstep
                  exact henv

/-- With no new-mail callback configured, every state the `serve` loop can
reach has a nil envelope. -/
lemma reachable_env_none {E : Type} {srv : Server E} {ops : EnvOps E}
    {st : SessionState E} (hcb : srv.OnNewMail = none)
    (hr : Reachable srv ops st) : st.env = none := by
  induction hr with
  | init => rfl
  | next hprev hstep ih => exact step_env_none hcb ih hstep

/-- C8: on a server with no new-mail hook (`OnNewMail` nil), every
syntactically valid MAIL FROM reaching any state the session loop can be
in answers `451 Server.OnNewMail not configured`, creates no envelope, and
the session continues with its state untouched. -/
theorem C8_no_onNewMail_451 {E : Type} (srv : Server E) (ops : EnvOps E)
    (st : SessionState E) (line : cmdLine) (email : Str)
    (hcb : srv.OnNewMail = none)
    (hr : Reachable srv ops st)
    (hvalid : line.checkValid = none)
    (hverb : line.Verb = str "MAIL")
    (hm : mailFromREMatch line.Arg = some email) :
    session.step srv ops st line =
      .cont (str "451 Server.OnNewMail not configured" ++ crlf) st := by
  have henv := reachable_env_none hcb hr
  unfold session.step session.handleMailFrom
  rw [hvalid, hverb, hm, henv, hcb]
  rfl

/-- Witness for C8: the initial state of a hookless server answers 451 to
`MAIL FROM:<a@b.com>`. -/
theorem C8_no_onNewMail_451_witness :
    (Server.mk (E := BasicEnvelope) (str "mx.test") [] none).OnNewMail = none ∧
    cmdLine.checkValid (str "MAIL FROM:<a@b.com>\r\n") = none ∧
    cmdLine.Verb (str "MAIL FROM:<a@b.com>\r\n") = str "MAIL" ∧
    mailFromREMatch (cmdLine.Arg (str "MAIL FROM:<a@b.com>\r\n")) = some (str "a@b.com") ∧
    session.step (E := BasicEnvelope) ⟨str "mx.test", [], none⟩ basicEnvOps
        (initialState BasicEnvelope) (str "MAIL FROM:<a@b.com>\r\n") =
      .cont (str "451 Server.OnNewMail not configured" ++ crlf)
        (initialState BasicEnvelope) :=
  ⟨rfl, by decide, by decide, by decide,
    C8_no_onNewMail_451 ⟨str "mx.test", [], none⟩ basicEnvOps
      (initialState BasicEnvelope) (str "MAIL FROM:<a@b.com>\r\n") (str "a@b.com")
      rfl Reachable.init (by decide) (by decide) (by decide)⟩

/-- A session state whose envelope is already nil is unchanged by
re-assigning `env := none` (Go `s.env = nil`, line 247). -/
lemma SessionState.set_env_none {E : Type} {st : SessionState E}
    (h : st.env = none) : ({ st with env := none } : SessionState E) = st := by
  cases st
  simp_all

/-- A syntactically valid MAIL line dispatches to `handleMailFrom`
(lines 200-207). -/
lemma step_mail {E : Type} (srv : Server E) (ops : EnvOps E)
    (st : SessionState E) (line : cmdLine) (email : Str)
    (hvalid : line.checkValid = none)
    (hverb : line.Verb = str "MAIL")
    (hm : mailFromREMatch line.Arg = some email) :
    session.step srv ops st line =
      .cont (session.handleMailFrom srv st email).out
        (session.handleMailFrom srv st email).st := by
  unfold session.step
  rw [hvalid, hverb, hm]
  rfl

/-- C9: when the new-mail callback rejects the sender, the session writes
nothing (no status line), keeps a nil envelope, and the loop continues with
the state untouched. -/
theorem C9_newmail_rejection_silent {E : Type} (srv : Server E)
    (ops : EnvOps E) (st : SessionState E) (line : cmdLine) (email msg : Str)
    (cb : addrString → Except Str E)
    (hcb : srv.OnNewMail = some cb)
    (herr : cb email = .error msg)
    (henv : st.env = none)
    (hvalid : line.checkValid = none)
    (hverb : line.Verb = str "MAIL")
    (hm : mailFromREMatch line.Arg = some email) :
    session.step srv ops st line = .cont [] st := by
  rw [step_mail srv ops st line email hvalid hverb hm]
  unfold session.handleMailFrom
  rw [henv, hcb]
  simp only [Option.isSome_none, Bool.false_eq_true, if_false]
  rw [herr]
  simp [SessionState.set_env_none henv]

/-- Witness for C9: a reject-all callback on `MAIL FROM:<a@b.com>` in the
initial state produces no output and the same state. -/
theorem C9_newmail_rejection_silent_witness :
    (Server.mk (E := BasicEnvelope) (str "mx.test") []
        (some (fun _ => .error (str "no")))).OnNewMail =
      some (fun _ => .error (str "no")) ∧
    (fun (_ : addrString) => (.error (str "no") : Except Str BasicEnvelope)) (str "a@b.com") =
      .error (str "no") ∧
    (initialState BasicEnvelope).env = none ∧
    cmdLine.checkValid (str "MAIL FROM:<a@b.com>\r\n") = none ∧
    cmdLine.Verb (str "MAIL FROM:<a@b.com>\r\n") = str "MAIL" ∧
    mailFromREMatch (cmdLine.Arg (str "MAIL FROM:<a@b.com>\r\n")) = some (str "a@b.com") ∧
    session.step (E := BasicEnvelope)
        ⟨str "mx.test", [], some (fun _ => .error (str "no"))⟩ basicEnvOps
        (initialState BasicEnvelope) (str "MAIL FROM:<a@b.com>\r\n") =
      .cont [] (initialState BasicEnvelope) :=
  ⟨rfl, rfl, rfl, by decide, by decide, by decide,
    C9_newmail_rejection_silent ⟨str "mx.test", [], some (fun _ => .error (str "no"))⟩
      basicEnvOps (initialState BasicEnvelope) (str "MAIL FROM:<a@b.com>\r\n")
      (str "a@b.com") (str "no") (fun _ => .error (str "no"))
      rfl rfl rfl (by decide) (by decide) (by decide)⟩

/-- C10: a HELO or EHLO command records the hello type (the uppercased
verb) and the hello host (the argument) and changes nothing else of the
session state — in particular the `env` field, active envelope or not, is
carried over unchanged. -/
theorem C10_hello_preserves_envelope {E : Type} (srv : Server E)
    (ops : EnvOps E) (st : SessionState E) (line : cmdLine)
    (hvalid : line.checkValid = none)
    (hverb : line.Verb = str "HELO" ∨ line.Verb = str "EHLO") :
    session.step srv ops st line =
      .cont (session.handleHello srv st line.Verb line.Arg).out
        { st with helloType := line.Verb, helloHost := line.Arg } := by
  unfold session.step
  rw [hvalid]
  rcases hverb with hv | hv
  · rw [hv]
    rfl
  · rw [hv]
    rfl

/-- Witness for C10: an EHLO arriving mid-transaction (envelope holding one
recipient) re-records the hello fields and keeps the envelope. -/
theorem C10_hello_preserves_envelope_witness :
    cmdLine.checkValid (str "EHLO new.example\r\n") = none ∧
    (cmdLine.Verb (str "EHLO new.example\r\n") = str "HELO" ∨
      cmdLine.Verb (str "EHLO new.example\r\n") = str "EHLO") ∧
    session.step (E := BasicEnvelope) ⟨str "mx.test", [], none⟩ basicEnvOps
        ⟨some [str "c@d.com"], str "HELO", str "old.example"⟩
        (str "EHLO new.example\r\n") =
      .cont (session.handleHello (E := BasicEnvelope) ⟨str "mx.test", [], none⟩
          ⟨some [str "c@d.com"], str "HELO", str "old.example"⟩
          (cmdLine.Verb (str "EHLO new.example\r\n"))
          (cmdLine.Arg (str "EHLO new.example\r\n"))).out
        ⟨some [str "c@d.com"], cmdLine.Verb (str "EHLO new.example\r\n"),
          cmdLine.Arg (str "EHLO new.example\r\n")⟩ :=
  ⟨by decide, by decide,
    C10_hello_preserves_envelope ⟨str "mx.test", [], none⟩ basicEnvOps
      ⟨some [str "c@d.com"], str "HELO", str "old.example"⟩
      (str "EHLO new.example\r\n") (by decide) (by decide)⟩
